import Mathlib

/-!
# A verification development for the RLook 12-bit sample-disk decoder

This file gives a shallow embedding, in Lean 4, of the decoding core of the
RLook repository (`rlook/disk/diskread.py` and `rlook/disk/formats.py`), and
proves properties of that embedding.

Modelling conventions:
* A Python `bytes` object is a `List Nat`, each element a byte value `< 256`.
* Python slicing `img[a:b]` is `(img.drop a).take (b - a)`; a slice with no
  end, `img[a:]`, is `img.drop a`.  Python slicing clamps out-of-range
  bounds, as `List.drop`/`List.take` do.
* Fallible Python code (raising exceptions) is modelled with `Except`.
* `int.from_bytes(_, byteorder='big')` is `beBytesToNat` / `beBytesToInt`;
  `bytes.decode('ascii')` succeeds exactly when every byte is `< 128`;
  `struct.unpack(f'{n}b', s)` requires `s` to have exactly `n` bytes and
  yields signed 8-bit values.
* `struct.pack('H', x)` (native byte order; the program targets a
  little-endian platform) is `leBytes16`.
-/

namespace RLook

/-- One entry of a declarative field layout, mirroring the Python dicts
`{'name': ..., 'type': ..., 'size': ...}` in `formats.py`.  The `type` is kept
as a string exactly as in the source, where it is compared against string
literals. -/
structure Field where
  name : String
  type : String
  size : Nat
deriving DecidableEq

/-- A decoded parameter value, mirroring the possible results of each branch
of `DiskBytes.read_params`. -/
inductive PValue where
  | int (n : Nat)
  | sint (z : Int)
  | multi (l : List Int)
  | ascii (s : List Nat)
  | raw (b : List Nat)
deriving DecidableEq

/-- Exceptions that `read_params` can raise: `struct.error` from
`struct.unpack` on a short buffer, and `UnicodeDecodeError` from
`bytes.decode('ascii')` on a byte `≥ 0x80`. -/
inductive DecodeErr where
  | structError
  | unicodeError
deriving DecidableEq

/-- `int.from_bytes(l, byteorder='big', signed=False)`. -/
def beBytesToNat (l : List Nat) : Nat :=
  l.foldl (fun acc b => acc * 256 + b) 0

/-- `int.from_bytes(l, byteorder='big', signed=True)` (two's complement). -/
def beBytesToInt (l : List Nat) : Int :=
  let m := beBytesToNat l
  if 2 * m < 2 ^ (8 * l.length) then (m : Int) else (m : Int) - 2 ^ (8 * l.length)

/-- One signed 8-bit value, as produced for each byte by
`struct.unpack(f'{n}b', _)`. -/
def signedByte (b : Nat) : Int :=
  if b < 128 then (b : Int) else (b : Int) - 256

/-- Python `dict` assignment `values[k] = v`: update in place if the key is
present (keeping its position), else append. -/
def insertVal : List (String × PValue) → String → PValue → List (String × PValue)
  | [], k, v => [(k, v)]
  | (k', v') :: rest, k, v =>
    if k' = k then (k', v) :: rest else (k', v') :: insertVal rest k v

/-- Python `dict` lookup used by `ParamBlock.lookup` / `Tone.read`. -/
def lookupVal (l : List (String × PValue)) (k : String) : Option PValue :=
  (l.find? (fun p => p.1 = k)).map Prod.snd

/-- One iteration of the `for param in fmt` loop body of
`DiskBytes.read_params`: decode one field from the front of the view.
Returns the stored value (if any) and the advanced view.  The final
`else: pass  # TODO error handling` branch of the source stores nothing and
does not advance the cursor. -/
def decodeOne (f : Field) (view : List Nat) : Except DecodeErr (Option PValue × List Nat) :=
  if f.type = "int" then
    .ok (some (.int (beBytesToNat (view.take f.size))), view.drop f.size)
  else if f.type = "signed_int" then
    .ok (some (.sint (beBytesToInt (view.take f.size))), view.drop f.size)
  else if f.type = "multi" then
    let popped := view.take f.size
    if popped.length = f.size then
      .ok (some (.multi (popped.map signedByte)), view.drop f.size)
    else
      .error .structError
  else if f.type = "ascii" then
    let popped := view.take f.size
    if popped.all (fun b => b < 128) then
      .ok (some (.ascii popped), view.drop f.size)
    else
      .error .unicodeError
  else if f.type = "raw" then
    .ok (some (.raw (view.take f.size)), view.drop f.size)
  else if f.type = "dummy" then
    .ok (none, view.drop f.size)
  else
    .ok (none, view)

/-- `DiskBytes.read_params(values, fmt)`: fold `decodeOne` over the layout,
threading the values dict and the cursor; an exception aborts the pass. -/
def read_params (values : List (String × PValue)) (view : List Nat) :
    List Field → Except DecodeErr (List (String × PValue) × List Nat)
  | [] => .ok (values, view)
  | f :: rest =>
    match decodeOne f view with
    | .error e => .error e
    | .ok (none, view') => read_params values view' rest
    | .ok (some v, view') => read_params (insertVal values f.name v) view' rest

/-- Total byte size of a field layout (the sum of the declared `size`s). -/
def fmtSize (fmt : List Field) : Nat :=
  (fmt.map Field.size).sum

/-- A format descriptor class from `formats.py`: the per-family constants and
the four declarative field layouts. -/
structure Descriptor where
  FORMAT_STRING : String
  SYSTEM_SIZE : Nat
  PATCH_SIZE : Nat
  TONE_SIZE : Nat
  WAVE_SIZE : Nat
  TONES_OFFSET : Nat
  PATCHES_OFFSET : Nat
  FUNCTION_OFFSET : Nat
  MIDI_OFFSET : Nat
  WAVE_OFFSET : Nat
  PATCH_COUNT : Nat
  TONE_COUNT : Nat
  tone_fmt : List Field
  patch_fmt : List Field
  func_fmt : List Field
  midi_fmt : List Field
deriving DecidableEq

/-- The `S550` class of `formats.py` (it also covers S-330 and, experimentally,
W-30 disks). -/
def S550 : Descriptor where
  FORMAT_STRING := "S550"
  SYSTEM_SIZE := 64512
  PATCH_SIZE := 256
  TONE_SIZE := 128
  WAVE_SIZE := 660312
  TONES_OFFSET := 69120
  PATCHES_OFFSET := 64512
  FUNCTION_OFFSET := 68608
  MIDI_OFFSET := 68832
  WAVE_OFFSET := 73728
  PATCH_COUNT := 16
  TONE_COUNT := 32
  tone_fmt := [
    ⟨"NAME", "ascii", 8⟩,
    ⟨"TONE OUTPUT ASSIGN", "int", 1⟩,
    ⟨"SOURCE TONE", "int", 1⟩,
    ⟨"ORIG/SUB TONE", "int", 1⟩,
    ⟨"FREQUENCY", "int", 1⟩,
    ⟨"ORIG KEY NUMBER", "int", 1⟩,
    ⟨"WAVE BANK", "int", 1⟩,
    ⟨"WAVE SEGMENT TOP", "int", 1⟩,
    ⟨"WAVE SEGMENT LENGTH", "int", 1⟩,
    ⟨"START POINT", "int", 3⟩,
    ⟨"END POINT", "int", 3⟩,
    ⟨"LOOP POINT", "int", 3⟩,
    ⟨"LOOP MODE", "int", 1⟩,
    ⟨"TVA LFO DEPTH", "int", 1⟩,
    ⟨"dummy1", "dummy", 1⟩,
    ⟨"LFO RATE", "int", 1⟩,
    ⟨"LFO SYNC", "int", 1⟩,
    ⟨"LFO DELAY", "int", 1⟩,
    ⟨"dummy2", "dummy", 1⟩,
    ⟨"LFO MODE", "int", 1⟩,
    ⟨"OSC LFO DEPTH", "int", 1⟩,
    ⟨"LFO POLARITY", "int", 1⟩,
    ⟨"LFO OFFSET", "int", 1⟩,
    ⟨"TRANSPOSE", "signed_int", 1⟩,
    ⟨"FINE TUNE", "signed_int", 1⟩,
    ⟨"TVF CUT OFF", "int", 1⟩,
    ⟨"TVF RESONANCE", "int", 1⟩,
    ⟨"TVF KEY FOLLOW", "int", 1⟩,
    ⟨"dummy3", "dummy", 1⟩,
    ⟨"TVF LFO DEPTH", "int", 1⟩,
    ⟨"TVF EG DEPTH", "int", 1⟩,
    ⟨"TVF EG POLARITY", "int", 1⟩,
    ⟨"TVF LEVEL CURVE", "int", 1⟩,
    ⟨"TVF KEY RATE FOLLOW", "int", 1⟩,
    ⟨"TVF VELOCITY RATE FOLLOW", "int", 1⟩,
    ⟨"dummy4", "dummy", 1⟩,
    ⟨"TVF SWITCH", "int", 1⟩,
    ⟨"BENDER SWITCH", "int", 1⟩,
    ⟨"TVA ENV SUSTAIN POINT", "int", 1⟩,
    ⟨"TVA ENV END POINT", "int", 1⟩,
    ⟨"TVA ENV", "multi", 16⟩,
    ⟨"dummy5", "dummy", 1⟩,
    ⟨"TVA ENV KEY-RATE", "int", 1⟩,
    ⟨"LEVEL", "int", 1⟩,
    ⟨"ENV VEL-RATE", "int", 1⟩,
    ⟨"Recording Params", "multi", 12⟩,
    ⟨"ZOOM T", "int", 1⟩,
    ⟨"ZOOM L", "int", 1⟩,
    ⟨"COPY SOURCE", "int", 1⟩,
    ⟨"LOOP TUNE", "signed_int", 1⟩,
    ⟨"TVA LEVEL CURVE", "int", 1⟩,
    ⟨"dummy6", "dummy", 12⟩,
    ⟨"LOOP LENGTH", "int", 3⟩,
    ⟨"PITCH FOLLOW", "int", 1⟩,
    ⟨"ENV ZOOM", "int", 1⟩,
    ⟨"TVF ENV SUSTAIN POINT", "int", 1⟩,
    ⟨"TVF ENV END POINT", "int", 1⟩,
    ⟨"TVF ENV", "multi", 16⟩,
    ⟨"AFTER TOUCH SWITCH", "int", 1⟩,
    ⟨"dummy7", "dummy", 2⟩]
  patch_fmt := [
    ⟨"NAME", "ascii", 12⟩,
    ⟨"BEND RANGE", "int", 1⟩,
    ⟨"dummy1", "dummy", 1⟩,
    ⟨"AFTER TOUCH SENSE", "int", 1⟩,
    ⟨"KEY MODE", "int", 1⟩,
    ⟨"VELOCITY SW THRESHOLD", "int", 1⟩,
    ⟨"TONE TO KEY 1", "multi", 109⟩,
    ⟨"TONE TO KEY 2", "multi", 109⟩,
    ⟨"COPY SOURCE", "int", 1⟩,
    ⟨"OCTAVE SHIFT", "signed_int", 1⟩,
    ⟨"OUTPUT LEVEL", "int", 1⟩,
    ⟨"dummy2", "dummy", 1⟩,
    ⟨"DETUNE", "signed_int", 1⟩,
    ⟨"VELOCITY MIX RATIO", "int", 1⟩,
    ⟨"AFTER TOUCH ASSIGN", "int", 1⟩,
    ⟨"KEY ASSIGN", "int", 1⟩,
    ⟨"OUTPUT ASSIGN", "int", 1⟩,
    ⟨"dummy3", "dummy", 12⟩]
  func_fmt := [
    ⟨"MASTER TUNE", "signed_int", 1⟩,
    ⟨"dummy1", "dummy", 13⟩,
    ⟨"dummy2", "dummy", 1⟩,
    ⟨"dummy3", "dummy", 1⟩,
    ⟨"VOICE MODE", "int", 1⟩,
    ⟨"MULTI MIDI RX-CH", "multi", 8⟩,
    ⟨"MULTI PATCH NUMBER", "multi", 8⟩,
    ⟨"dummy4", "dummy", 9⟩,
    ⟨"KEYBOARD DISPLAY", "int", 1⟩,
    ⟨"MULTI LEVEL", "multi", 8⟩,
    ⟨"DISK LABEL", "raw", 60⟩,
    ⟨"dummy5", "dummy", 4⟩,
    ⟨"EXTERNAL CONTROLLER", "int", 1⟩,
    ⟨"dummy6", "dummy", 108⟩]
  midi_fmt := [
    ⟨"dummy1", "dummy", 64⟩,
    ⟨"RX CHANNEL", "multi", 8⟩,
    ⟨"RX PROGRAM CHANGE", "multi", 8⟩,
    ⟨"RX BENDER", "multi", 8⟩,
    ⟨"RX MODULATION", "multi", 8⟩,
    ⟨"RX HOLD", "multi", 8⟩,
    ⟨"RX AFTER TOUCH", "multi", 8⟩,
    ⟨"RX VOLUME", "multi", 8⟩,
    ⟨"RX BEND RANGE", "multi", 8⟩,
    ⟨"dummy2", "dummy", 1⟩,
    ⟨"SYSTEM EXCLUSIVE", "int", 1⟩,
    ⟨"DEVICE ID", "int", 1⟩,
    ⟨"RX PROGRAM CHANGE NUMBER", "multi", 32⟩,
    ⟨"dummy3", "dummy", 125⟩]

/-- The `S50` class of `formats.py` (S-50 / S-51 disks). -/
def S50 : Descriptor where
  FORMAT_STRING := "S-50"
  SYSTEM_SIZE := 64512
  PATCH_SIZE := 512
  TONE_SIZE := 128
  WAVE_SIZE := 660312
  TONES_OFFSET := 69120
  PATCHES_OFFSET := 64512
  FUNCTION_OFFSET := 68608
  MIDI_OFFSET := 68832
  WAVE_OFFSET := 73728
  PATCH_COUNT := 8
  TONE_COUNT := 32
  tone_fmt := [
    ⟨"NAME", "ascii", 8⟩,
    ⟨"dummy1", "dummy", 1⟩,
    ⟨"SOURCE TONE", "int", 1⟩,
    ⟨"ORIG/SUB TONE", "int", 1⟩,
    ⟨"FREQUENCY", "int", 1⟩,
    ⟨"ORIG KEY NUMBER", "int", 1⟩,
    ⟨"WAVE BANK", "int", 1⟩,
    ⟨"WAVE SEGMENT TOP", "int", 1⟩,
    ⟨"WAVE SEGMENT LENGTH", "int", 1⟩,
    ⟨"START POINT", "int", 3⟩,
    ⟨"END POINT", "int", 3⟩,
    ⟨"LOOP POINT", "int", 3⟩,
    ⟨"LOOP MODE", "int", 1⟩,
    ⟨"dummy2", "dummy", 2⟩,
    ⟨"LFO RATE", "int", 1⟩,
    ⟨"dummy3", "dummy", 1⟩,
    ⟨"LFO DELAY", "int", 1⟩,
    ⟨"dummy4", "dummy", 2⟩,
    ⟨"LFO DEPTH", "int", 1⟩,
    ⟨"dummy5", "dummy", 3⟩,
    ⟨"FINE TUNE", "int", 1⟩,
    ⟨"dummy6", "dummy", 13⟩,
    ⟨"TVA ENV SUSTAIN POINT", "int", 1⟩,
    ⟨"TVA ENV END POINT", "int", 1⟩,
    ⟨"TVA ENV", "multi", 16⟩,
    ⟨"dummy7", "dummy", 1⟩,
    ⟨"ENV KEY-RATE", "int", 1⟩,
    ⟨"LEVEL", "int", 1⟩,
    ⟨"ENV VEL-RATE", "int", 1⟩,
    ⟨"ENV THRESHOLD", "int", 1⟩,
    ⟨"REC PRE-TRIGER", "int", 1⟩,
    ⟨"REC SAMPLING FREQUENCY", "int", 1⟩,
    ⟨"REC START POINT", "int", 3⟩,
    ⟨"REC END POINT", "int", 3⟩,
    ⟨"REC LOOP POINT", "int", 3⟩,
    ⟨"ZOOM T", "int", 1⟩,
    ⟨"ZOOM L", "int", 1⟩,
    ⟨"COPY SOURCE", "int", 1⟩,
    ⟨"LOOP TUNE", "signed_int", 1⟩,
    ⟨"LEVEL CURVE", "int", 1⟩,
    ⟨"dummy8", "dummy", 12⟩,
    ⟨"LOOP LENGTH", "int", 3⟩,
    ⟨"PITCH FOLLOW", "int", 1⟩,
    ⟨"ENV ZOOM", "int", 1⟩,
    ⟨"dummy9", "dummy", 21⟩]
  patch_fmt := [
    ⟨"NAME", "ascii", 12⟩,
    ⟨"BEND RANGE", "int", 1⟩,
    ⟨"dummy1", "dummy", 1⟩,
    ⟨"AFTER TOUCH SENSE", "int", 1⟩,
    ⟨"dummy2", "dummy", 4⟩,
    ⟨"KEY MODE", "int", 1⟩,
    ⟨"VELOCITY SW THRESHOLD", "int", 1⟩,
    ⟨"dummy3", "dummy", 19⟩,
    ⟨"TONE TO KEY 1", "multi", 128⟩,
    ⟨"TONE TO KEY 2", "multi", 128⟩,
    ⟨"COPY SOURCE", "int", 1⟩,
    ⟨"OCTAVE SHIFT", "int", 1⟩,
    ⟨"OUTPUT LEVEL", "int", 1⟩,
    ⟨"MODULATION DEPTH", "int", 1⟩,
    ⟨"DETUNE", "dummy", 1⟩,
    ⟨"VELOCITY MIX RATIO", "int", 1⟩,
    ⟨"AFTER TOUCH ASSIGN", "int", 1⟩,
    ⟨"dummy4", "dummy", 209⟩]
  func_fmt := [
    ⟨"MASTER TUNE", "signed_int", 1⟩,
    ⟨"dummy1", "dummy", 3⟩,
    ⟨"CONTROLLER ASSIGN", "int", 1⟩,
    ⟨"DP-2 ASSIGN", "int", 1⟩,
    ⟨"dummy2", "dummy", 8⟩,
    ⟨"AUDIO TRIG", "int", 1⟩,
    ⟨"SYSTEM MODE", "int", 1⟩,
    ⟨"VOICE MODE", "int", 1⟩,
    ⟨"MULTI MIDI RX-CH", "multi", 8⟩,
    ⟨"MULTI PATCH NUMBER", "multi", 8⟩,
    ⟨"MULTI TONE NUMBER", "multi", 8⟩,
    ⟨"dummy3", "dummy", 1⟩,
    ⟨"KEYBOARD ASSIGN", "int", 1⟩,
    ⟨"MULTI LEVEL", "multi", 8⟩,
    ⟨"DISK LABEL", "raw", 60⟩,
    ⟨"MIDI CONTROL CHANGE NUMBER", "int", 1⟩,
    ⟨"PARAMETER INITIALIZE", "int", 1⟩,
    ⟨"DT-100", "int", 1⟩,
    ⟨"dummy4", "dummy", 270⟩]
  midi_fmt := [
    ⟨"dummy1", "dummy", 8⟩,
    ⟨"TX CHANNEL", "int", 1⟩,
    ⟨"TX PROGRAM CHANGE", "int", 1⟩,
    ⟨"TX BENDER", "int", 1⟩,
    ⟨"TX MODULATION", "int", 1⟩,
    ⟨"TX HOLD", "int", 1⟩,
    ⟨"TX AFTER TOUCH", "int", 1⟩,
    ⟨"TX VOLUME", "int", 1⟩,
    ⟨"dummy2", "dummy", 1⟩,
    ⟨"RX PROGRAM NUMBER", "multi", 8⟩,
    ⟨"TX PROGRAM NUMBER", "multi", 8⟩,
    ⟨"RX CHANNEL", "multi", 8⟩,
    ⟨"RX PROGRAM CHANGE", "multi", 8⟩,
    ⟨"RX BENDER", "multi", 8⟩,
    ⟨"RX MODULATION", "multi", 8⟩,
    ⟨"RX HOLD", "multi", 8⟩,
    ⟨"RX AFTER TOUCH", "multi", 8⟩,
    ⟨"RX VOLUME", "multi", 8⟩,
    ⟨"RX BEND RANGE", "multi", 8⟩,
    ⟨"TX BEND RANGE", "int", 1⟩,
    ⟨"SYSTEM EXCLUSIVE", "int", 1⟩,
    ⟨"DEVICE ID", "int", 1⟩,
    ⟨"dummy3", "dummy", 285⟩]

/-- Exceptions raised by `formats.check`: the `UnicodeDecodeError` branch
(`'Format error: Unknown file format'`) and the unrecognized-signature branch
(which names the offending decoded string). -/
inductive FormatError where
  | unknownFormat
  | invalidFormat (s : List Nat)
deriving DecidableEq

/-- ASCII bytes of the signature string `"S550"`. -/
def sigS550 : List Nat := [83, 53, 53, 48]
/-- ASCII bytes of the signature string `"S330"`. -/
def sigS330 : List Nat := [83, 51, 51, 48]
/-- ASCII bytes of the signature string `"W-30"`. -/
def sigW30 : List Nat := [87, 45, 51, 48]
/-- ASCII bytes of the signature string `"S-50"`. -/
def sigS50 : List Nat := [83, 45, 53, 48]
/-- ASCII bytes of the signature string `"S-51"`. -/
def sigS51 : List Nat := [83, 45, 53, 49]

/-- `formats.check(img)`: decode `img[4:8]` as ASCII (failure raises the
unknown-file `FormatError`), then dispatch on the signature string.  The
source's quirky chained comparison `format_str == format_str == 'W-30'` is
kept literally as a conjunction. -/
def check (img : List Nat) : Except FormatError Descriptor :=
  let format_str := (img.drop 4).take 4
  if format_str.all (fun b => b < 128) then
    if format_str = sigS550 ∨ format_str = sigS330 then .ok S550
    else if format_str = format_str ∧ format_str = sigW30 then .ok S550
    else if format_str = sigS50 ∨ format_str = sigS51 then .ok S50
    else .error (.invalidFormat format_str)
  else .error .unknownFormat

/-! ## Wave addressing and the 12-bit PCM codec (`Disk` methods) -/

/-- `Disk.SEGMENT_SIZE`: bytes in one wave segment. -/
def SEGMENT_SIZE : Nat := 18432
/-- `Disk.BANK_SIZE`: bytes in one wave bank. -/
def BANK_SIZE : Nat := 331776
/-- `diskread.MAX_FILE_SIZE`: sanity limit on the source file size. -/
def MAX_FILE_SIZE : Nat := 2000000

/-- `Disk.get_wave_start`, as a function of the tone's `WAVE BANK` and
`WAVE SEGMENT TOP` values: bank-B tones are offset by `BANK_SIZE`, everything
else starts from address 0. -/
def get_wave_start (tone_bank tone_seg : Nat) : Nat :=
  (if tone_bank = 1 then BANK_SIZE else 0) + SEGMENT_SIZE * tone_seg

/-- `Disk.get_wave_end`: address of the next segment after the tone. -/
def get_wave_end (tone_bank tone_seg tone_length : Nat) : Nat :=
  get_wave_start tone_bank tone_seg + SEGMENT_SIZE * tone_length

/-- The two bytes written by `struct.pack('H', n)` (16-bit little-endian on
the program's platform), for `n < 65536`. -/
def leBytes16 (n : Nat) : List Nat := [n % 256, n / 256]

/-- The per-chunk unpacking arithmetic of `Disk.convert_wave`: a 3-byte chunk
holds two 12-bit samples interleaved as nibbles `A1 A2 A3 B3 B1 B2`; both are
returned promoted to 16 bits (shifted left by 4). -/
def decodeChunk (b0 b1 b2 : Nat) : Nat × Nat :=
  let chunk := beBytesToNat [b0, b1, b2]
  let sample_a := (chunk &&& 0xfff000) >>> 8
  let r := chunk &&& 0xfff
  let sample_b := ((r <<< 8) &&& 0xff00) ||| ((r >>> 4) &&& 0xf0)
  (sample_a, sample_b)

/-- Modelled from the spec (and the source comment in `convert_wave`): the
3-byte chunk that packs two 12-bit values `a`, `b` under the interleaving
`A1 A2 A3 B3 B1 B2`.  The source contains no encoder; this is the spec-side
definition for the round-trip property. -/
def packChunk (a b : Nat) : List Nat :=
  [a / 16, a % 16 * 16 + b % 16, b / 16]

/-- The `while tone_addr < end_addr` loop of `Disk.convert_wave`.
`view` is the `DiskBytes` window on the tone's wave bytes and `remaining` is
`end_addr - tone_addr` (decremented by 3 per chunk).  A short chunk (fewer
than 3 bytes left in the window) breaks out of the loop; if `use_loop_points`
is set and the running sample counter reaches `loop_end`, the loop stops
without emitting the current chunk.  The output is the byte buffer written
with `struct.pack('H', _)` for each sample, A then B. -/
def convertLoop (view : List Nat) (remaining : Nat) (use_loop_points : Bool)
    (loop_end samples_read : Nat) : List Nat :=
  if _h : remaining = 0 then []
  else
    match view with
    | b0 :: b1 :: b2 :: _ =>
      let s := decodeChunk b0 b1 b2
      if use_loop_points ∧ loop_end ≤ samples_read + 2 then []
      else
        leBytes16 s.1 ++ leBytes16 s.2 ++
          convertLoop (view.drop 3) (remaining - 3) use_loop_points loop_end (samples_read + 2)
    | _ => []
termination_by remaining
decreasing_by omega

/-- `Disk.convert_wave`, as a function of the raw wave region and the tone's
decoded `WAVE BANK`, `WAVE SEGMENT TOP`, `WAVE SEGMENT LENGTH` and
`END POINT` values.  Returns the 16-bit PCM byte buffer. -/
def convert_wave (wave : List Nat) (tone_bank tone_seg tone_length loop_end : Nat)
    (use_loop_points : Bool) : List Nat :=
  let tone_addr := (if tone_bank = 1 then BANK_SIZE else 0) + SEGMENT_SIZE * tone_seg
  let end_addr := tone_addr + SEGMENT_SIZE * tone_length
  let view := (wave.drop tone_addr).take (end_addr - tone_addr)
  convertLoop view (end_addr - tone_addr) use_loop_points loop_end 0

/-- Number of 16-bit samples in a PCM byte buffer. -/
def sampleCount (pcm : List Nat) : Nat := pcm.length / 2

/-! ## Parameter blocks, Tone/Patch reads and disk construction -/

/-- The state of a `ParamBlock` (and its `Tone`/`Patch` subclasses): a block
format, a starting address, and the decoded values dict. -/
structure ParamBlockS where
  block_fmt : List Field
  addr : Nat
  values : List (String × PValue)
deriving DecidableEq

/-- The address update `self.addr = self.addr + size*self.number` performed at
the start of `Tone.read` and `Patch.read`. -/
def indexAddr (b : ParamBlockS) (number size : Nat) : ParamBlockS :=
  { b with addr := b.addr + size * number }

/-- `ParamBlock.read(img)`: anchor a `DiskBytes` window at `self.addr` and run
`read_params` over the block format. -/
def block_read (img : List Nat) (b : ParamBlockS) : Except DecodeErr ParamBlockS :=
  match read_params [] (img.drop b.addr) b.block_fmt with
  | .error e => .error e
  | .ok (vals, _) => .ok { b with values := vals }

/-- Errors that can escape `Disk.__init__`. -/
inductive DiskError where
  | fileSizeError
  | formatErr (e : FormatError)
  | decodeErr (e : DecodeErr)
  | keyError
deriving DecidableEq

/-- Python truthiness of a stored parameter value, as used by
`15000 if self.values['FREQUENCY'] else 30000`. -/
def truthy : PValue → Bool
  | .int n => n ≠ 0
  | .sint z => z ≠ 0
  | .multi l => !l.isEmpty
  | .ascii s => !s.isEmpty
  | .raw b => !b.isEmpty

/-- `Tone.read(img, number, size)`: update the address by `size*number`,
delegate to the generic block read, then remap `FREQUENCY` (truthy → 15000 Hz,
else 30000 Hz).  A missing `FREQUENCY` key would raise `KeyError`. -/
def tone_read (img : List Nat) (b : ParamBlockS) (number size : Nat) :
    Except DiskError ParamBlockS :=
  match block_read img (indexAddr b number size) with
  | .error e => .error (.decodeErr e)
  | .ok b2 =>
    match lookupVal b2.values "FREQUENCY" with
    | none => .error .keyError
    | some v =>
      .ok { b2 with
            values := insertVal b2.values "FREQUENCY"
              (.int (if truthy v then 15000 else 30000)) }

/-- `Patch.read(img, number, size)`: update the address by `size*number` and
delegate to the generic block read. -/
def patch_read (img : List Nat) (b : ParamBlockS) (number size : Nat) :
    Except DiskError ParamBlockS :=
  match block_read img (indexAddr b number size) with
  | .error e => .error (.decodeErr e)
  | .ok b' => .ok b'

/-- The `for i in range(0, count)` loops of `Disk.__init__` that read the
patch and tone arrays in index order, failing at the first error. -/
def readRange (f : Nat → Except DiskError ParamBlockS) : Nat → Except DiskError (List ParamBlockS)
  | 0 => .ok []
  | n + 1 =>
    match readRange f n with
    | .error e => .error e
    | .ok l =>
      match f n with
      | .error e => .error e
      | .ok b => .ok (l ++ [b])

/-- The decoded state of a `Disk` object after `__init__`, plus the list of
messages sent to the `tee` log channel for the image-size check. -/
structure DiskData where
  format : Descriptor
  sys : List Nat
  os_ver : Option (List Nat)
  wave : List Nat
  function : ParamBlockS
  midi : ParamBlockS
  patches : List ParamBlockS
  tones : List ParamBlockS
  log : List String
deriving DecidableEq

/-- The `tee` message emitted when the image length is not 737280 bytes; the
check in `Disk.__init__` only logs, it does not raise. -/
def sizeLog (img : List Nat) : List String :=
  if img.length ≠ 737280 then ["Bad disk image size."] else []

/-- The OS-version parse in `Disk.__init__`: `self.sys[32:63]` decoded as
ASCII; a decode failure is caught and tolerated (the version stays unset).
The presentation-level whitespace collapse applied to the decoded string is
not modelled. -/
def os_version (img : List Nat) : Option (List Nat) :=
  if (((img.take 64512).drop 32).take 31).all (fun b => b < 128) then
    some (((img.take 64512).drop 32).take 31)
  else none

/-- The body of `Disk.__init__` after the file-size gate: format detection,
raw region slicing, the OS-version parse (failure tolerated), then function,
MIDI, patch and tone block decoding.  The function and MIDI addresses 68608
and 68832 are literal in the source.  Exceptions from any block decode
propagate out.  The log channel is left empty here and attached by
`diskBodyWithLog`. -/
def diskBody0 (img : List Nat) : Except DiskError DiskData :=
  match check img with
  | .error e => .error (.formatErr e)
  | .ok fmt =>
    match block_read img ⟨fmt.func_fmt, 68608, []⟩ with
    | .error e => .error (.decodeErr e)
    | .ok fn =>
      match block_read img ⟨fmt.midi_fmt, 68832, []⟩ with
      | .error e => .error (.decodeErr e)
      | .ok md =>
        match readRange
            (fun i => patch_read img ⟨fmt.patch_fmt, fmt.PATCHES_OFFSET, []⟩ i fmt.PATCH_SIZE)
            fmt.PATCH_COUNT with
        | .error e => .error e
        | .ok ps =>
          match readRange
              (fun i => tone_read img ⟨fmt.tone_fmt, fmt.TONES_OFFSET, []⟩ i fmt.TONE_SIZE)
              fmt.TONE_COUNT with
          | .error e => .error e
          | .ok ts =>
            .ok ⟨fmt, img.take 64512, os_version img, (img.drop 73728).take 663552,
              fn, md, ps, ts, []⟩

/-- `diskBody0` with the messages sent to the `tee` log channel attached to
the decoded disk (an exception during decoding discards them). -/
def diskBodyWithLog (img : List Nat) (log : List String) : Except DiskError DiskData :=
  (diskBody0 img).map fun d => { d with log := log }

/-- `Disk.__init__(filename)` over the file's bytes: reject files over
`MAX_FILE_SIZE` with `FileSizeError` before anything is decoded, then run the
body (logging a size mismatch against 737280 bytes without failing). -/
def diskInit (img : List Nat) : Except DiskError DiskData :=
  if MAX_FILE_SIZE < img.length then .error .fileSizeError
  else diskBodyWithLog img (sizeLog img)

/-- Modelled from the spec: "a mismatched size is logged but not fatal
(tolerant read)" — disk construction with the 737280-byte total-size check
removed entirely, for comparison with `diskInit`. -/
def diskInitNoSizeCheck (img : List Nat) : Except DiskError DiskData :=
  if MAX_FILE_SIZE < img.length then .error .fileSizeError
  else diskBodyWithLog img []

/-- Forget the log channel of a decoded disk. -/
def dropLog (d : DiskData) : DiskData := { d with log := [] }

/-- The set of type tags handled by `read_params` (everything that does not
fall into the silent `else` branch). -/
def knownTypeB (f : Field) : Bool :=
  f.type == "int" || f.type == "signed_int" || f.type == "multi" || f.type == "ascii" ||
    f.type == "raw" || f.type == "dummy"

/-- The condition under which every `ascii` field of a layout decodes
successfully on a given window: each one's bytes are valid ASCII (`< 0x80`).
Each field advances the window by its declared size. -/
def asciiOkB : List Field → List Nat → Bool
  | [], _ => true
  | f :: rest, view =>
    (if f.type == "ascii" then (view.take f.size).all (fun b => b < 128) else true) &&
      asciiOkB rest (view.drop f.size)

/-- The names of the non-dummy fields of a layout, in order: the keys the
decode pass is expected to store. -/
def nonDummyNames (fmt : List Field) : List String :=
  (fmt.filter (fun f => f.type != "dummy")).map Field.name


lemma testBit_mul_pow_add (u k v i : Nat) (h : v < 2 ^ k) :
    (u * 2 ^ k + v).testBit i = if i < k then v.testBit i else u.testBit (i - k) := by
  by_cases hik : i < k
  · have hmod : (u * 2 ^ k + v) % 2 ^ k = v := by
      rw [Nat.add_comm, Nat.add_mul_mod_self_right, Nat.mod_eq_of_lt h]
    rw [if_pos hik]
    conv_rhs => rw [← hmod]
    rw [Nat.testBit_mod_two_pow]
    simp [hik]
  · have hdiv : (u * 2 ^ k + v) >>> k = u := by
      rw [Nat.shiftRight_eq_div_pow, Nat.add_comm,
        Nat.add_mul_div_right _ _ (Nat.two_pow_pos k), Nat.div_eq_of_lt h, Nat.zero_add]
    rw [if_neg hik]
    conv_rhs => rw [← hdiv, Nat.testBit_shiftRight, Nat.add_sub_cancel' (Nat.le_of_not_lt hik)]

lemma lor_mul_pow (u v k : Nat) (h : v < 2 ^ k) : u * 2 ^ k ||| v = u * 2 ^ k + v := by
  apply Nat.eq_of_testBit_eq
  intro i
  rw [Nat.testBit_or, testBit_mul_pow_add u k v i h]
  by_cases hik : i < k
  · have hu : (u * 2 ^ k).testBit i = false := by
      rw [← Nat.shiftLeft_eq, Nat.testBit_shiftLeft]
      simp [Nat.not_le.mpr hik]
    simp [hu, hik]
  · have hv : v.testBit i = false :=
      Nat.testBit_lt_two_pow
        (lt_of_lt_of_le h (Nat.pow_le_pow_right (by norm_num) (by omega)))
    rw [← Nat.shiftLeft_eq, Nat.testBit_shiftLeft]
    simp [Nat.le_of_not_lt hik, hv, hik]

lemma and_mask_window (x k w : Nat) :
    x &&& (2 ^ w - 1) <<< k = x / 2 ^ k % 2 ^ w * 2 ^ k := by
  apply Nat.eq_of_testBit_eq
  intro i
  rw [Nat.testBit_and]
  have hR : x / 2 ^ k % 2 ^ w * 2 ^ k = ((x >>> k) % 2 ^ w) <<< k := by
    rw [Nat.shiftLeft_eq, Nat.shiftRight_eq_div_pow]
  rw [hR, Nat.testBit_shiftLeft, Nat.testBit_shiftLeft, Nat.testBit_mod_two_pow,
    Nat.testBit_two_pow_sub_one, Nat.testBit_shiftRight]
  by_cases hik : k ≤ i
  · rw [Nat.add_sub_cancel' hik]
    simp only [ge_iff_le, hik, decide_True, Bool.true_and]
    cases x.testBit i <;> cases decide (i - k < w) <;> simp
  · simp [hik]
lemma decodeChunk_packChunk (a b : Nat) (ha : a < 4096) (hb : b < 4096) :
    decodeChunk (a / 16) (a % 16 * 16 + b % 16) (b / 16) = (16 * a, 16 * b) := by
  unfold decodeChunk beBytesToNat
  simp only [List.foldl]
  rw [(by norm_num [Nat.shiftLeft_eq] : (0xfff000 : Nat) = (2 ^ 12 - 1) <<< 12),
    (by norm_num : (0xfff : Nat) = 2 ^ 12 - 1),
    (by norm_num [Nat.shiftLeft_eq] : (0xff00 : Nat) = (2 ^ 8 - 1) <<< 8),
    (by norm_num [Nat.shiftLeft_eq] : (0xf0 : Nat) = (2 ^ 4 - 1) <<< 4),
    and_mask_window, Nat.and_pow_two_sub_one_eq_mod, and_mask_window, and_mask_window,
    Nat.shiftRight_eq_div_pow, Nat.shiftRight_eq_div_pow, Nat.shiftLeft_eq]
  norm_num
  generalize hc : (a / 16 * 256 + (a % 16 * 16 + b % 16)) * 256 + b / 16 = c
  have hc2 : c = 4096 * a + 256 * (b % 16) + b / 16 := by omega
  constructor
  · have h1 : c / 4096 = a := by omega
    rw [h1]
    omega
  · have hv : c % 4096 / 16 / 16 % 16 * 16 < 2 ^ 8 := by omega
    rw [(by norm_num : c % 256 * 256 = c % 256 * 2 ^ 8), lor_mul_pow _ _ _ hv]
    have h2 : c % 256 = b / 16 := by omega
    have h3 : c % 4096 = 256 * (b % 16) + b / 16 := by omega
    rw [h2, h3, Nat.div_div_eq_div_mul]
    have h4 : (256 * (b % 16) + b / 16) / (16 * 16) = b % 16 := by omega
    rw [h4]
    omega
/-- C1: for every pair of 12-bit values `(a, b)`, decoding the 3-byte chunk
that packs them under the documented interleaving `A1 A2 A3 B3 B1 B2` (the
chunk read as a 24-bit big-endian integer, then the source's mask/shift
arithmetic) yields exactly the two 16-bit outputs `(a<<4, b<<4)`, and the
conversion loop emits them as 16-bit little-endian values in the order A
then B. -/
theorem convert_chunk_roundtrip (a b : Nat) (ha : a < 4096) (hb : b < 4096) :
    decodeChunk (a / 16) (a % 16 * 16 + b % 16) (b / 16) = (16 * a, 16 * b) ∧
    convertLoop (packChunk a b) 3 false 0 0 = leBytes16 (16 * a) ++ leBytes16 (16 * b) := by
  refine ⟨decodeChunk_packChunk a b ha hb, ?_⟩
  rw [packChunk, convertLoop, decodeChunk_packChunk a b ha hb]
  simp [convertLoop]
lemma convertLoop_zero (view : List Nat) (u : Bool) (k s : Nat) :
    convertLoop view 0 u k s = [] := by
  rw [convertLoop.eq_def]
  simp

lemma convertLoop_cons (b0 b1 b2 : Nat) (rest : List Nat) (rem : Nat) (u : Bool)
    (k s : Nat) (h : rem ≠ 0) :
    convertLoop (b0 :: b1 :: b2 :: rest) rem u k s =
      if u ∧ k ≤ s + 2 then []
      else leBytes16 (decodeChunk b0 b1 b2).1 ++ leBytes16 (decodeChunk b0 b1 b2).2 ++
        convertLoop rest (rem - 3) u k (s + 2) := by
  rw [convertLoop.eq_def]
  simp [h]

lemma convertLoop_short (view : List Nat) (rem : Nat) (u : Bool) (k s : Nat)
    (h : view.length < 3) : convertLoop view rem u k s = [] := by
  rcases view with _ | ⟨b0, _ | ⟨b1, _ | ⟨b2, rest⟩⟩⟩
  · rw [convertLoop.eq_def]
    split <;> rfl
  · rw [convertLoop.eq_def]
    split <;> rfl
  · rw [convertLoop.eq_def]
    split <;> rfl
  · exfalso
    simp only [List.length_cons] at h
    omega
lemma convertLoop_true_length_le (rem : Nat) : ∀ (view : List Nat) (k s : Nat),
    (convertLoop view rem true k s).length ≤ 2 * (k - s) := by
  induction rem using Nat.strong_induction_on with
  | _ rem ih =>
    intro view k s
    rcases Nat.eq_zero_or_pos rem with hrem | hrem
    · subst hrem
      simp [convertLoop_zero]
    rcases view with _ | ⟨b0, _ | ⟨b1, _ | ⟨b2, rest⟩⟩⟩
    · rw [convertLoop_short _ _ _ _ _ (by simp)]
      simp
    · rw [convertLoop_short _ _ _ _ _ (by simp)]
      simp
    · rw [convertLoop_short _ _ _ _ _ (by simp)]
      simp
    · rw [convertLoop_cons _ _ _ _ _ _ _ _ (by omega)]
      split
      · simp
      · rename_i hcond
        have hs : s + 2 < k := by
          rcases Nat.lt_or_ge (s + 2) k with h | h
          · exact h
          · exact absurd ⟨rfl, h⟩ hcond
        have hrec := ih (rem - 3) (by omega) rest k (s + 2)
        simp only [leBytes16, List.length_append, List.length_cons, List.length_nil]
        omega

lemma convertLoop_false_length (rem : Nat) : ∀ (view : List Nat) (k s : Nat),
    rem ≤ view.length → rem % 3 = 0 →
    (convertLoop view rem false k s).length = rem / 3 * 4 := by
  induction rem using Nat.strong_induction_on with
  | _ rem ih =>
    intro view k s hlen hmod
    rcases Nat.eq_zero_or_pos rem with hrem | hrem
    · subst hrem
      simp [convertLoop_zero]
    have hrem3 : 3 ≤ rem := by omega
    rcases view with _ | ⟨b0, _ | ⟨b1, _ | ⟨b2, rest⟩⟩⟩
    · simp at hlen
      omega
    · simp at hlen
      omega
    · simp at hlen
      omega
    · rw [convertLoop_cons _ _ _ _ _ _ _ _ (by omega),
        if_neg (fun hc => by simp at hc)]
      have hrec := ih (rem - 3) (by omega) rest k (s + 2)
        (by simp only [List.length_cons] at hlen; omega) (by omega)
      simp only [leBytes16, List.length_append, List.length_cons, List.length_nil, hrec]
      omega
/-- C5: for a tone whose wave byte range lies within the wave region,
conversion with `use_loop_points = true` and `END POINT = k` emits at most
`k` samples (the loop stops as soon as the running counter reaches `k`),
while conversion with `use_loop_points = false` emits exactly
`len * (SEGMENT_SIZE/3) * 2 = 12288 * len` samples. -/
theorem convert_wave_loop_truncation (wave : List Nat) (bank seg len k : Nat)
    (h : get_wave_end bank seg len ≤ wave.length) :
    sampleCount (convert_wave wave bank seg len k true) ≤ k ∧
    sampleCount (convert_wave wave bank seg len k false) = 12288 * len := by
  unfold get_wave_end get_wave_start at h
  unfold sampleCount convert_wave
  simp only [Nat.add_sub_cancel_left, SEGMENT_SIZE, BANK_SIZE] at *
  generalize hbase : (if bank = 1 then 331776 else 0) = base at *
  constructor
  · have hb := convertLoop_true_length_le (18432 * len)
      ((wave.drop (base + 18432 * seg)).take (18432 * len)) k 0
    omega
  · have hlen : 18432 * len ≤
        ((wave.drop (base + 18432 * seg)).take (18432 * len)).length := by
      simp only [List.length_take, List.length_drop]
      omega
    have hb := convertLoop_false_length (18432 * len)
      ((wave.drop (base + 18432 * seg)).take (18432 * len)) k 0 hlen (by omega)
    rw [hb]
    omega
/-- C8: a tone whose `WAVE SEGMENT LENGTH` is 0 has a zero-length wave
sample range (end address equals start address), and PCM conversion of such
a tone returns zero samples without signalling an error. -/
theorem empty_tone_zero_range (wave : List Nat) (bank seg k : Nat) (u : Bool) :
    get_wave_end bank seg 0 = get_wave_start bank seg ∧
    convert_wave wave bank seg 0 k u = [] := by
  constructor
  · simp [get_wave_end]
  · simp [convert_wave, convertLoop_zero, Nat.add_sub_cancel_left]

/-- C10: wave addressing adds `BANK_SIZE` to the start address exactly when
the tone's `WAVE BANK` value equals 1; every other value — including 0 and
the 2-for-empty marker — is treated as bank A base address 0, so an
empty-marked tone's range is computed inside bank A (and `convert_wave`
reads the same bytes for bank values 2 and 0). -/
theorem wave_bank_rule (wave : List Nat) (bank seg len k : Nat) (u : Bool) :
    (bank = 1 → get_wave_start bank seg = BANK_SIZE + SEGMENT_SIZE * seg) ∧
    (bank ≠ 1 → get_wave_start bank seg = SEGMENT_SIZE * seg) ∧
    get_wave_start 2 seg = get_wave_start 0 seg ∧
    (bank ≠ 1 → seg < 18 → get_wave_start bank seg < BANK_SIZE) ∧
    convert_wave wave 2 seg len k u = convert_wave wave 0 seg len k u := by
  refine ⟨?_, ?_, ?_, ?_, ?_⟩
  · intro h
    simp [get_wave_start, h]
  · intro h
    simp [get_wave_start, h]
  · simp [get_wave_start]
  · intro h1 h2
    simp only [get_wave_start, BANK_SIZE, SEGMENT_SIZE, if_neg h1, Nat.zero_add]
    omega
  · simp [convert_wave]
/-- C3, divergence witness: the spec requires an unknown type tag to fail
fast, but `read_params` hits the source's `else: pass  # TODO error handling`
branch: on the layout `[{name X, type bogus, size 1}]` over the window `[7]`
it returns successfully, stores nothing, and does not even advance the
cursor. -/
theorem read_params_unknown_tag_ignored :
    read_params [] [7] [⟨"X", "bogus", 1⟩] = .ok ([], [7]) := by
  rfl

/-- C4: a Tone or Patch constructed at the descriptor's block base offset
and read with `(i, s)` decodes starting at address `base + i*s` (the address
update of `Tone.read`/`Patch.read` followed by the generic block read
anchored there), and for each of the four concrete layout/stride pairs of
both descriptors the decoded region of index `i` (of size `fmtSize`, the
bytes one decode pass consumes) ends at or before the start of the region of
index `i + 1`: adjacent instances never overlap. -/
theorem tone_patch_addressing (img : List Nat) (fmtL : List Field) (base i s : Nat) :
    (indexAddr ⟨fmtL, base, []⟩ i s).addr = base + i * s ∧
    block_read img (indexAddr ⟨fmtL, base, []⟩ i s) = block_read img ⟨fmtL, base + i * s, []⟩ ∧
    (indexAddr ⟨S550.tone_fmt, S550.TONES_OFFSET, []⟩ i S550.TONE_SIZE).addr + fmtSize S550.tone_fmt
      ≤ (indexAddr ⟨S550.tone_fmt, S550.TONES_OFFSET, []⟩ (i + 1) S550.TONE_SIZE).addr ∧
    (indexAddr ⟨S550.patch_fmt, S550.PATCHES_OFFSET, []⟩ i S550.PATCH_SIZE).addr + fmtSize S550.patch_fmt
      ≤ (indexAddr ⟨S550.patch_fmt, S550.PATCHES_OFFSET, []⟩ (i + 1) S550.PATCH_SIZE).addr ∧
    (indexAddr ⟨S50.tone_fmt, S50.TONES_OFFSET, []⟩ i S50.TONE_SIZE).addr + fmtSize S50.tone_fmt
      ≤ (indexAddr ⟨S50.tone_fmt, S50.TONES_OFFSET, []⟩ (i + 1) S50.TONE_SIZE).addr ∧
    (indexAddr ⟨S50.patch_fmt, S50.PATCHES_OFFSET, []⟩ i S50.PATCH_SIZE).addr + fmtSize S50.patch_fmt
      ≤ (indexAddr ⟨S50.patch_fmt, S50.PATCHES_OFFSET, []⟩ (i + 1) S50.PATCH_SIZE).addr := by
  have h1 : fmtSize S550.tone_fmt = 128 := by decide
  have h2 : fmtSize S550.patch_fmt = 256 := by decide
  have h3 : fmtSize S50.tone_fmt = 128 := by decide
  have h4 : fmtSize S50.patch_fmt = 512 := by decide
  have hb : block_read img (indexAddr ⟨fmtL, base, []⟩ i s) = block_read img ⟨fmtL, base + i * s, []⟩ := by
    rw [show indexAddr ⟨fmtL, base, []⟩ i s = (⟨fmtL, base + i * s, []⟩ : ParamBlockS) from by
      simp [indexAddr, Nat.mul_comm]]
  refine ⟨by simp [indexAddr, Nat.mul_comm], hb, ?_, ?_, ?_, ?_⟩ <;>
  · simp only [indexAddr, h1, h2, h3, h4]
    simp only [S550, S50]
    omega

/-- C9: `Tone.read`/`Patch.read` are not idempotent: the address update
adds `size * number` to the stored address instead of setting it, so for
`i > 0` (and a positive stride) a second call with the same `(i, s)` leaves
the block decoding at `base + 2*i*s`, a different region from the first
call's `base + i*s`. -/
theorem read_addr_not_idempotent (fmtL : List Field) (base i s : Nat)
    (hi : 0 < i) (hs : 0 < s) :
    (indexAddr ⟨fmtL, base, []⟩ i s).addr = base + i * s ∧
    (indexAddr (indexAddr ⟨fmtL, base, []⟩ i s) i s).addr = base + 2 * (i * s) ∧
    (indexAddr (indexAddr ⟨fmtL, base, []⟩ i s) i s).addr ≠ (indexAddr ⟨fmtL, base, []⟩ i s).addr := by
  have hpos : 0 < i * s := Nat.mul_pos hi hs
  refine ⟨by simp [indexAddr, Nat.mul_comm], ?_, ?_⟩
  · simp only [indexAddr]
    simp only [Nat.mul_comm s i]
    omega
  · simp only [indexAddr]
    simp only [Nat.mul_comm s i]
    omega
/-- C2: for every byte sequence of length at least 8, detection on the
4-byte signature `img[4:8]` returns the 550-class descriptor for `S550`,
`S330` and `W-30`, the 50-class descriptor for `S-50` and `S-51`, fails with
a `FormatError` naming the offending string for any other ASCII signature,
and fails with a `FormatError` when the 4 bytes are not valid ASCII. -/
theorem check_detect_spec (img : List Nat) (_hlen : 8 ≤ img.length) :
    ((img.drop 4).take 4 = sigS550 ∨ (img.drop 4).take 4 = sigS330 ∨ (img.drop 4).take 4 = sigW30 →
      check img = .ok S550) ∧
    ((img.drop 4).take 4 = sigS50 ∨ (img.drop 4).take 4 = sigS51 → check img = .ok S50) ∧
    (((img.drop 4).take 4).all (fun b => b < 128) = true →
      (img.drop 4).take 4 ∉ [sigS550, sigS330, sigW30, sigS50, sigS51] →
      check img = .error (.invalidFormat ((img.drop 4).take 4))) ∧
    (((img.drop 4).take 4).all (fun b => b < 128) = false →
      check img = .error .unknownFormat) := by
  unfold check
  refine ⟨?_, ?_, ?_, ?_⟩
  · rintro (h1 | h1 | h1) <;> rw [h1] <;> simp [sigS550, sigS330, sigW30, sigS50, sigS51]
  · rintro (h1 | h1) <;> rw [h1] <;> simp [sigS550, sigS330, sigW30, sigS50, sigS51]
  · intro hascii hnot
    simp only [List.mem_cons, List.not_mem_nil, or_false, not_or] at hnot
    obtain ⟨n1, n2, n3, n4, n5⟩ := hnot
    rw [if_pos hascii, if_neg (by tauto), if_neg (by tauto), if_neg (by tauto)]
  · intro hascii
    rw [if_neg (by simp [hascii])]
lemma fmtSize_cons (f : Field) (rest : List Field) :
    fmtSize (f :: rest) = f.size + fmtSize rest := by
  simp [fmtSize]

lemma insertVal_fresh (l : List (String × PValue)) (k : String) (v : PValue)
    (h : k ∉ l.map Prod.fst) : insertVal l k v = l ++ [(k, v)] := by
  induction l with
  | nil => rfl
  | cons p t ih =>
    obtain ⟨k1, v1⟩ := p
    simp only [List.map_cons, List.mem_cons, not_or] at h
    simp only [insertVal]
    rw [if_neg (fun hc => h.1 hc.symm), ih h.2]
    simp

lemma mem_nonDummyNames (g : Field) (rest : List Field) (hg : g ∈ rest)
    (hnd : g.type ≠ "dummy") : g.name ∈ nonDummyNames rest := by
  simp only [nonDummyNames, List.mem_map, List.mem_filter]
  exact ⟨g, ⟨hg, by simp [hnd]⟩, rfl⟩

lemma nonDummyNames_cons_store (f : Field) (rest : List Field) (hnd : f.type ≠ "dummy") :
    nonDummyNames (f :: rest) = f.name :: nonDummyNames rest := by
  simp [nonDummyNames, List.filter_cons, hnd]

lemma nonDummyNames_cons_dummy (f : Field) (rest : List Field) (hd : f.type = "dummy") :
    nonDummyNames (f :: rest) = nonDummyNames rest := by
  simp [nonDummyNames, List.filter_cons, hd]
lemma read_params_cons_store (f : Field) (rest : List Field) (acc : List (String × PValue))
    (view : List Nat) (v : PValue) (hnd : f.type ≠ "dummy")
    (hstep : read_params acc view (f :: rest) =
      read_params (insertVal acc f.name v) (view.drop f.size) rest)
    (hsize : f.size ≤ view.length)
    (hfreshf : f.name ∉ acc.map Prod.fst)
    (hrec : ∃ out, read_params (insertVal acc f.name v) (view.drop f.size) rest = .ok out ∧
      out.2.length + fmtSize rest = (view.drop f.size).length ∧
      out.1.map Prod.fst = (insertVal acc f.name v).map Prod.fst ++ nonDummyNames rest) :
    ∃ out, read_params acc view (f :: rest) = .ok out ∧
      out.2.length + fmtSize (f :: rest) = view.length ∧
      out.1.map Prod.fst = acc.map Prod.fst ++ nonDummyNames (f :: rest) := by
  obtain ⟨out, h1, h2, h3⟩ := hrec
  refine ⟨out, by rw [hstep]; exact h1, ?_, ?_⟩
  · rw [fmtSize_cons]
    simp only [List.length_drop] at h2
    omega
  · rw [h3, insertVal_fresh _ _ _ hfreshf, nonDummyNames_cons_store f rest hnd]
    simp

lemma read_params_cons_dummy (f : Field) (rest : List Field) (acc : List (String × PValue))
    (view : List Nat) (hd : f.type = "dummy")
    (hsize : f.size ≤ view.length)
    (hrec : ∃ out, read_params acc (view.drop f.size) rest = .ok out ∧
      out.2.length + fmtSize rest = (view.drop f.size).length ∧
      out.1.map Prod.fst = acc.map Prod.fst ++ nonDummyNames rest) :
    ∃ out, read_params acc view (f :: rest) = .ok out ∧
      out.2.length + fmtSize (f :: rest) = view.length ∧
      out.1.map Prod.fst = acc.map Prod.fst ++ nonDummyNames (f :: rest) := by
  obtain ⟨out, h1, h2, h3⟩ := hrec
  have hstep : read_params acc view (f :: rest) = read_params acc (view.drop f.size) rest := by
    simp [read_params, decodeOne, hd]
  refine ⟨out, by rw [hstep]; exact h1, ?_, ?_⟩
  · rw [fmtSize_cons]
    simp only [List.length_drop] at h2
    omega
  · rw [h3, nonDummyNames_cons_dummy f rest hd]
lemma read_params_store_case (f : Field) (rest : List Field) (acc : List (String × PValue))
    (view : List Nat) (v : PValue)
    (IH : ∀ (acc : List (String × PValue)) (view : List Nat),
      (∀ g ∈ rest, knownTypeB g = true) → asciiOkB rest view = true →
      fmtSize rest ≤ view.length → (nonDummyNames rest).Nodup →
      (∀ g ∈ rest, g.type ≠ "dummy" → g.name ∉ acc.map Prod.fst) →
      ∃ out, read_params acc view rest = .ok out ∧
        out.2.length + fmtSize rest = view.length ∧
        out.1.map Prod.fst = acc.map Prod.fst ++ nonDummyNames rest)
    (hnd : f.type ≠ "dummy")
    (hstep : read_params acc view (f :: rest) =
      read_params (insertVal acc f.name v) (view.drop f.size) rest)
    (hkrest : ∀ g ∈ rest, knownTypeB g = true)
    (hasc2 : asciiOkB rest (view.drop f.size) = true)
    (hsize : f.size ≤ view.length)
    (hlen' : fmtSize rest ≤ (view.drop f.size).length)
    (hnodup : (nonDummyNames (f :: rest)).Nodup)
    (hfresh : ∀ g ∈ f :: rest, g.type ≠ "dummy" → g.name ∉ acc.map Prod.fst) :
    ∃ out, read_params acc view (f :: rest) = .ok out ∧
      out.2.length + fmtSize (f :: rest) = view.length ∧
      out.1.map Prod.fst = acc.map Prod.fst ++ nonDummyNames (f :: rest) := by
  rw [nonDummyNames_cons_store f rest hnd] at hnodup
  have hnodup2 := List.nodup_cons.mp hnodup
  have hfreshf : f.name ∉ acc.map Prod.fst := hfresh f (List.mem_cons_self f rest) hnd
  have hfresh' : ∀ g ∈ rest, g.type ≠ "dummy" →
      g.name ∉ (insertVal acc f.name v).map Prod.fst := by
    intro g hg hgnd
    rw [insertVal_fresh _ _ _ hfreshf]
    simp only [List.map_append, List.map_cons, List.map_nil, List.mem_append,
      List.mem_cons, List.not_mem_nil, or_false, not_or]
    exact ⟨hfresh g (List.mem_cons_of_mem f hg) hgnd,
      fun hc => hnodup2.1 (hc ▸ mem_nonDummyNames g rest hg hgnd)⟩
  exact read_params_cons_store f rest acc view v hnd hstep hsize hfreshf
    (IH _ _ hkrest hasc2 hlen' hnodup2.2 hfresh')

lemma read_params_spec_aux (fmt : List Field) : ∀ (acc : List (String × PValue)) (view : List Nat),
    (∀ f ∈ fmt, knownTypeB f = true) →
    asciiOkB fmt view = true →
    fmtSize fmt ≤ view.length →
    (nonDummyNames fmt).Nodup →
    (∀ f ∈ fmt, f.type ≠ "dummy" → f.name ∉ acc.map Prod.fst) →
    ∃ out, read_params acc view fmt = .ok out ∧
      out.2.length + fmtSize fmt = view.length ∧
      out.1.map Prod.fst = acc.map Prod.fst ++ nonDummyNames fmt := by
  induction fmt with
  | nil =>
    intro acc view _ _ _ _ _
    exact ⟨(acc, view), rfl, by simp [fmtSize], by simp [nonDummyNames]⟩
  | cons f rest ih =>
    intro acc view hknown hascii hlen hnodup hfresh
    have hknf := hknown f (List.mem_cons_self f rest)
    have hkrest : ∀ g ∈ rest, knownTypeB g = true :=
      fun g hg => hknown g (List.mem_cons_of_mem f hg)
    simp only [asciiOkB, Bool.and_eq_true] at hascii
    obtain ⟨hasc1, hasc2⟩ := hascii
    rw [fmtSize_cons] at hlen
    have hsize : f.size ≤ view.length := by omega
    have hlen' : fmtSize rest ≤ (view.drop f.size).length := by
      simp only [List.length_drop]
      omega
    simp only [knownTypeB, Bool.or_eq_true, beq_iff_eq] at hknf
    rcases hknf with ((((ht | ht) | ht) | ht) | ht) | ht
    · exact read_params_store_case f rest acc view (.int (beBytesToNat (view.take f.size))) ih
        (by rw [ht]; decide) (by simp [read_params, decodeOne, ht])
        hkrest hasc2 hsize hlen' hnodup hfresh
    · exact read_params_store_case f rest acc view (.sint (beBytesToInt (view.take f.size))) ih
        (by rw [ht]; decide) (by simp [read_params, decodeOne, ht])
        hkrest hasc2 hsize hlen' hnodup hfresh
    · have hlt : (view.take f.size).length = f.size := by
        simp only [List.length_take]
        omega
      exact read_params_store_case f rest acc view (.multi ((view.take f.size).map signedByte)) ih
        (by rw [ht]; decide) (by simp [read_params, decodeOne, ht, hlt])
        hkrest hasc2 hsize hlen' hnodup hfresh
    · have hasc : ((view.take f.size).all fun b => decide (b < 128)) = true := by
        rw [ht] at hasc1
        simpa using hasc1
      exact read_params_store_case f rest acc view (.ascii (view.take f.size)) ih
        (by rw [ht]; decide) (by simp [read_params, decodeOne, ht, hasc])
        hkrest hasc2 hsize hlen' hnodup hfresh
    · exact read_params_store_case f rest acc view (.raw (view.take f.size)) ih
        (by rw [ht]; decide) (by simp [read_params, decodeOne, ht])
        hkrest hasc2 hsize hlen' hnodup hfresh
    · exact read_params_cons_dummy f rest acc view ht hsize
        (ih acc (view.drop f.size) hkrest hasc2 hlen'
          (by rw [nonDummyNames_cons_dummy f rest ht] at hnodup; exact hnodup)
          (fun g hg hgnd => hfresh g (List.mem_cons_of_mem f hg) hgnd))
/-- C6, counterexample: the claim as stated fails on the code in two ways.
An `ascii` field over the 1-byte window `[255]` (its sizes sum to `N = 1` and
the window holds `N` bytes, all tags known) raises `UnicodeDecodeError`
instead of producing one entry; and two fields sharing the name `X` produce a
single dict entry, not one entry per field. -/
theorem read_params_claim_counterexample :
    read_params [] [255] [⟨"X", "ascii", 1⟩] = .error .unicodeError ∧
    read_params [] [1, 2] [⟨"X", "int", 1⟩, ⟨"X", "int", 1⟩] = .ok ([("X", .int 2)], []) :=
  ⟨rfl, rfl⟩

/-- C6, amended: for every layout whose tags are all known, whose non-dummy
field names are distinct, and whose `ascii` fields decode successfully on the
window, one decode pass over a window of at least `fmtSize` bytes succeeds,
advances the cursor by exactly `fmtSize` bytes, and produces exactly one
entry per named non-dummy field, dummy fields consuming their declared bytes
but being excluded from the mapping. -/
theorem read_params_known_tags_spec (fmt : List Field) (view : List Nat)
    (hknown : ∀ f ∈ fmt, knownTypeB f = true)
    (hascii : asciiOkB fmt view = true)
    (hlen : fmtSize fmt ≤ view.length)
    (hnodup : (nonDummyNames fmt).Nodup) :
    ∃ out, read_params [] view fmt = .ok out ∧
      out.2.length + fmtSize fmt = view.length ∧
      out.1.map Prod.fst = nonDummyNames fmt := by
  have h := read_params_spec_aux fmt [] view hknown hascii hlen hnodup (by simp)
  simpa using h

/-- C6, witness: the amended statement evaluated on a small concrete layout
with an int, a dummy and an ascii field. -/
theorem read_params_known_tags_spec_witness :
    ∃ out, read_params [] [1, 2, 3, 65, 99]
        [⟨"A", "int", 2⟩, ⟨"d", "dummy", 1⟩, ⟨"B", "ascii", 1⟩] = .ok out ∧
      out.2.length + fmtSize [⟨"A", "int", 2⟩, ⟨"d", "dummy", 1⟩, ⟨"B", "ascii", 1⟩] =
        ([1, 2, 3, 65, 99] : List Nat).length ∧
      out.1.map Prod.fst = nonDummyNames [⟨"A", "int", 2⟩, ⟨"d", "dummy", 1⟩, ⟨"B", "ascii", 1⟩] :=
  read_params_known_tags_spec _ _ (by decide) (by decide) (by decide) (by decide)
lemma readRange_error (f : Nat → Except DiskError ParamBlockS) (n : Nat) (e : DiskError)
    (h : readRange f n = .error e) : ∃ i, f i = .error e := by
  induction n with
  | zero => simp [readRange] at h
  | succ n ih =>
    rw [readRange] at h
    cases hr : readRange f n with
    | error e2 =>
      rw [hr] at h
      cases h
      exact ih hr
    | ok l =>
      rw [hr] at h
      cases hf : f n with
      | error e2 =>
        rw [hf] at h
        cases h
        exact ⟨n, hf⟩
      | ok b =>
        rw [hf] at h
        cases h

lemma patch_read_error_shape (img : List Nat) (b : ParamBlockS) (i s : Nat) (e : DiskError)
    (h : patch_read img b i s = .error e) : ∃ e2, e = .decodeErr e2 := by
  unfold patch_read at h
  split at h
  · cases h
    exact ⟨_, rfl⟩
  · cases h

lemma tone_read_error_shape (img : List Nat) (b : ParamBlockS) (i s : Nat) (e : DiskError)
    (h : tone_read img b i s = .error e) : (∃ e2, e = .decodeErr e2) ∨ e = .keyError := by
  unfold tone_read at h
  split at h
  · cases h
    exact .inl ⟨_, rfl⟩
  · split at h
    · cases h
      exact .inr rfl
    · cases h

lemma diskBody0_ne_fileSize (img : List Nat) :
    diskBody0 img ≠ .error .fileSizeError := by
  intro h
  unfold diskBody0 at h
  split at h
  · simp at h
  · split at h
    · simp at h
    · split at h
      · simp at h
      · split at h
        · rename_i hp
          cases h
          obtain ⟨i, hi⟩ := readRange_error _ _ _ hp
          obtain ⟨e2, he2⟩ := patch_read_error_shape _ _ _ _ _ hi
          cases he2
        · split at h
          · rename_i ht
            cases h
            obtain ⟨i, hi⟩ := readRange_error _ _ _ ht
            rcases tone_read_error_shape _ _ _ _ _ hi with ⟨e2, he2⟩ | he2 <;> cases he2
          · cases h

lemma diskBodyWithLog_ne_fileSize (img : List Nat) (log : List String) :
    diskBodyWithLog img log ≠ .error .fileSizeError := by
  intro h
  unfold diskBodyWithLog at h
  cases hb : diskBody0 img with
  | error e =>
    rw [hb] at h
    cases h
    exact diskBody0_ne_fileSize img hb
  | ok d =>
    rw [hb] at h
    cases h

lemma diskBodyWithLog_dropLog (img : List Nat) (l1 l2 : List String) :
    (diskBodyWithLog img l1).map dropLog = (diskBodyWithLog img l2).map dropLog := by
  unfold diskBodyWithLog
  cases diskBody0 img with
  | error e => rfl
  | ok d => simp [dropLog, Except.map]

/-- C7: disk construction fails with `FileSizeError` exactly when the
source exceeds 2,000,000 bytes; in that case the outcome does not depend on
the file's contents (the rejection precedes all decoding); and the result of
construction — success or failure — is the same, up to the log channel, as
that of the spec-side construction with the 737,280-byte total-size check
removed: a wrong total length alone never causes construction to fail. -/
theorem disk_init_size_gate (img : List Nat) :
    ((diskInit img = .error .fileSizeError) ↔ MAX_FILE_SIZE < img.length) ∧
    (∀ img2 : List Nat, img.length = img2.length → MAX_FILE_SIZE < img.length →
      diskInit img = diskInit img2) ∧
    (diskInit img).map dropLog = (diskInitNoSizeCheck img).map dropLog := by
  refine ⟨⟨?_, ?_⟩, ?_, ?_⟩
  · intro h
    by_contra hlen
    rw [diskInit, if_neg hlen] at h
    exact diskBodyWithLog_ne_fileSize img (sizeLog img) h
  · intro h
    rw [diskInit, if_pos h]
  · intro img2 heq h
    rw [diskInit, if_pos h, diskInit, if_pos (heq ▸ h)]
  · rw [diskInit, diskInitNoSizeCheck]
    split
    · rfl
    · exact diskBodyWithLog_dropLog img _ _


/-- C7, witness: a 2,000,001-byte file is rejected with `FileSizeError`,
with the same outcome for two such files with different contents. -/
theorem disk_init_size_gate_witness :
    diskInit (List.replicate 2000001 0) = .error .fileSizeError ∧
    diskInit (List.replicate 2000001 0) = diskInit (List.replicate 2000001 1) :=
  ⟨(disk_init_size_gate _).1.mpr (by norm_num [MAX_FILE_SIZE]),
   (disk_init_size_gate _).2.1 _ (by rw [List.length_replicate, List.length_replicate])
     (by norm_num [MAX_FILE_SIZE])⟩
/-- C1, witness: the round-trip at the concrete pair `(0xABC, 0x123)`,
whose packed chunk is `[171, 195, 18]`. -/
theorem convert_chunk_roundtrip_witness :
    (2748 : Nat) < 4096 ∧ (291 : Nat) < 4096 ∧
    (decodeChunk (2748 / 16) (2748 % 16 * 16 + 291 % 16) (291 / 16) = (16 * 2748, 16 * 291) ∧
      convertLoop (packChunk 2748 291) 3 false 0 0 =
        leBytes16 (16 * 2748) ++ leBytes16 (16 * 291)) ∧
    decodeChunk 171 195 18 = (43968, 4656) :=
  ⟨by norm_num, by norm_num,
   convert_chunk_roundtrip 2748 291 (by norm_num) (by norm_num), by decide⟩

/-- C2, witness: detection evaluated on one concrete image of each kind. -/
theorem check_detect_spec_witness :
    check [0, 0, 0, 0, 83, 53, 53, 48] = .ok S550 ∧
    check [0, 0, 0, 0, 83, 45, 53, 48] = .ok S50 ∧
    check [0, 0, 0, 0, 65, 66, 67, 68] = .error (.invalidFormat [65, 66, 67, 68]) ∧
    check [0, 0, 0, 0, 200, 66, 67, 68] = .error .unknownFormat :=
  ⟨(check_detect_spec _ (by decide)).1 (Or.inl (by decide)),
   (check_detect_spec _ (by decide)).2.1 (Or.inl (by decide)),
   (check_detect_spec _ (by decide)).2.2.1 (by decide) (by decide),
   (check_detect_spec _ (by decide)).2.2.2 (by decide)⟩

/-- C5, witness: both counts at a concrete (empty) tone. -/
theorem convert_wave_loop_truncation_witness :
    get_wave_end 0 0 0 ≤ ([] : List Nat).length ∧
    (sampleCount (convert_wave [] 0 0 0 5 true) ≤ 5 ∧
      sampleCount (convert_wave [] 0 0 0 5 false) = 12288 * 0) :=
  ⟨by decide, convert_wave_loop_truncation [] 0 0 0 5 (by decide)⟩

/-- C9, witness: the double read at `base = 69120`, `i = 1`, `s = 128`. -/
theorem read_addr_not_idempotent_witness :
    (indexAddr ⟨[], 69120, []⟩ 1 128).addr = 69120 + 1 * 128 ∧
    (indexAddr (indexAddr ⟨[], 69120, []⟩ 1 128) 1 128).addr = 69120 + 2 * (1 * 128) ∧
    (indexAddr (indexAddr ⟨[], 69120, []⟩ 1 128) 1 128).addr ≠ (indexAddr ⟨[], 69120, []⟩ 1 128).addr :=
  read_addr_not_idempotent [] 69120 1 128 (by norm_num) (by norm_num)

/-- C10, witness: the bank rule evaluated at bank values 1 and 2. -/
theorem wave_bank_rule_witness :
    get_wave_start 1 5 = BANK_SIZE + SEGMENT_SIZE * 5 ∧
    get_wave_start 2 0 = SEGMENT_SIZE * 0 ∧
    get_wave_start 2 0 = get_wave_start 0 0 ∧
    get_wave_start 2 0 < BANK_SIZE ∧
    convert_wave [] 2 0 0 0 false = convert_wave [] 0 0 0 0 false :=
  ⟨(wave_bank_rule [] 1 5 0 0 false).1 rfl,
   (wave_bank_rule [] 2 0 0 0 false).2.1 (by norm_num),
   (wave_bank_rule [] 2 0 0 0 false).2.2.1,
   (wave_bank_rule [] 2 0 0 0 false).2.2.2.1 (by norm_num) (by norm_num),
   (wave_bank_rule [] 2 0 0 0 false).2.2.2.2⟩

end RLook
